import Mathlib

/-!
Verification of the low-stock alert aggregation of the bynry backend case
study.  The service layer `fetchLowStockAlerts` (alerts.service.js) loops
over the company's warehouses and their inventory rows, applies the
threshold / recent-sales gates, computes the stockout estimate and attaches
supplier data; the controller `getLowStockAlerts` wraps the list together
with its length.  Collaborator lookups (the ORM `findAll` calls and the
helper functions that are not part of the published sources) are modelled
explicitly below.
-/

namespace Bynry

/-- Company row: the service itself never reads this table, it is only used
to state which company identifiers are "known". -/
structure Company where
  id : Nat
deriving DecidableEq, Repr

/-- Warehouse row (`warehouses`): belongs to exactly one company. -/
structure Warehouse where
  id : Nat
  company_id : Nat
  name : String
deriving DecidableEq, Repr

/-- Product row (`products`). -/
structure Product where
  id : Nat
  name : String
  sku : String
  product_type : String
deriving DecidableEq, Repr

/-- Inventory row (`inventory`): quantity of a product in a warehouse. -/
structure InventoryRecord where
  product_id : Nat
  warehouse_id : Nat
  quantity : Nat
deriving DecidableEq, Repr

/-- Historical sales row (`sales`); `sold_at` is an integer timestamp in
days. -/
structure SalesRecord where
  product_id : Nat
  warehouse_id : Nat
  quantity_sold : Nat
  sold_at : Int
deriving DecidableEq, Repr

/-- Supplier row (`suppliers`). -/
structure Supplier where
  id : Nat
  name : String
  contact_email : String
deriving DecidableEq, Repr

/-- Link row of the many-to-many `product_suppliers` table. -/
structure ProductSupplier where
  product_id : Nat
  supplier_id : Nat
deriving DecidableEq, Repr

/-- The read-only database state visible to the service, together with the
evaluation time `now` (same unit as `sold_at`). -/
structure DB where
  companies : List Company
  warehouses : List Warehouse
  products : List Product
  inventories : List InventoryRecord
  sales : List SalesRecord
  suppliers : List Supplier
  productSuppliers : List ProductSupplier
  now : Int
deriving DecidableEq, Repr

/-- `Warehouse.findAll({where: {company_id: companyId}})`: a SQL SELECT with
a WHERE filter; it returns the (possibly empty) list of matching rows and
never raises a not-found error for an unknown company id. -/
def findWarehouses (db : DB) (companyId : Nat) : List Warehouse :=
  db.warehouses.filter (fun w => w.company_id = companyId)

/-- Row lookup behind the `include: [Product]` join. -/
def lookupProduct (db : DB) (pid : Nat) : Option Product :=
  db.products.find? (fun p => p.id = pid)

/-- `Inventory.findAll({where: {warehouse_id}, include: [Product]})`: the
inventory rows of the warehouse joined with their product rows, in table
order. -/
def findInventoriesWithProduct (db : DB) (wid : Nat) :
    List (InventoryRecord × Product) :=
  (db.inventories.filter (fun i => i.warehouse_id = wid)).filterMap
    (fun i => (lookupProduct db i.product_id).map (fun p => (i, p)))

/-- Modelled from the spec: `getThresholdByProductType` is not among the
published sources; the spec fixes the policy table `simple → 20`,
`bundle → 10`, unknown type → a documented default (taken to be 20). -/
def getThresholdByProductType (ptype : String) : Nat :=
  if ptype = "simple" then 20 else if ptype = "bundle" then 10 else 20

/-- Decide whether a sales row falls in the trailing 30-day window for the
given pair: inclusive of `now − 30`, exclusive of future-dated rows. -/
def salesInWindow (db : DB) (pid wid : Nat) (s : SalesRecord) : Bool :=
  s.product_id = pid && s.warehouse_id = wid &&
    db.now - 30 ≤ s.sold_at && s.sold_at ≤ db.now

/-- Modelled from the spec: `hasRecentSalesActivity` is not among the
published sources; the spec's recency gate asks for at least one sale of the
product in the warehouse within the trailing 30-day window. -/
def hasRecentSalesActivity (db : DB) (pid wid : Nat) : Bool :=
  db.sales.any (salesInWindow db pid wid)

/-- Total quantity sold for the pair over the trailing 30-day window. -/
def totalQuantitySold (db : DB) (pid wid : Nat) : Nat :=
  ((db.sales.filter (salesInWindow db pid wid)).map
    (fun s => s.quantity_sold)).sum

/-- Modelled from the spec: `getAverageDailySales` is not among the
published sources; the spec computes average daily sales over the window as
`total_quantity_sold / 30`, a possibly fractional rational. -/
def getAverageDailySales (db : DB) (pid wid : Nat) : ℚ :=
  (totalQuantitySold db pid wid : ℚ) / 30

/-- Modelled from the spec: `getSupplierForProduct` is not among the
published sources; the spec attaches one supplier deterministically (lowest
supplier id among those linked to the product), or none when the product has
no supplier. -/
def getSupplierForProduct (db : DB) (pid : Nat) : Option Supplier :=
  (db.suppliers.filter (fun s =>
    db.productSuppliers.any (fun l =>
      l.product_id = pid && l.supplier_id = s.id))).foldl
    (fun acc s =>
      match acc with
      | none => some s
      | some b => if s.id < b.id then some s else some b) none

/-- One element of the response's `alerts` array (alerts.service.js lines
44–54). -/
structure Alert where
  product_id : Nat
  product_name : String
  sku : String
  warehouse_id : Nat
  warehouse_name : String
  current_stock : Nat
  threshold : Nat
  days_until_stockout : Option Int
  supplier : Option Supplier
deriving DecidableEq, Repr

/-- The collaborators as the service awaits them: each call either yields a
value or rejects with an error message (an awaited promise that rejects).
The service itself contains no try/catch, so the embedding sequences the
calls in the `Except` monad. -/
structure Env where
  findWarehouses : Nat → Except String (List Warehouse)
  findInventories : Nat → Except String (List (InventoryRecord × Product))
  hasRecentSales : Nat → Nat → Except String Bool
  avgDailySales : Nat → Nat → Except String ℚ
  supplierFor : Nat → Except String (Option Supplier)

/-- The alert object pushed for a pair that passed both gates
(alerts.service.js lines 44–54). -/
def mkAlert (w : Warehouse) (item : InventoryRecord) (product : Product)
    (threshold : Nat) (days : Option Int) (supplier : Option Supplier) :
    Alert :=
  { product_id := product.id
    product_name := product.name
    sku := product.sku
    warehouse_id := w.id
    warehouse_name := w.name
    current_stock := item.quantity
    threshold := threshold
    days_until_stockout := days
    supplier := supplier }

/-- Inner loop of the service (alerts.service.js lines 16–55): walk the
inventory rows of one warehouse, `continue` past pairs that fail the stock
gate or the recency gate, and push an alert for the rest; `alerts` is the
accumulator shared across warehouses. -/
def processPairsE (env : Env) (w : Warehouse) (alerts : List Alert) :
    List (InventoryRecord × Product) → Except String (List Alert)
  | [] => .ok alerts
  | (item, product) :: rest =>
    let threshold := getThresholdByProductType product.product_type
    if item.quantity ≥ threshold then
      processPairsE env w alerts rest
    else do
      let hasRecent ← env.hasRecentSales product.id w.id
      if !hasRecent then
        processPairsE env w alerts rest
      else do
        let avg ← env.avgDailySales product.id w.id
        let days : Option Int :=
          if 0 < avg then some ⌊(item.quantity : ℚ) / avg⌋ else none
        let supplier ← env.supplierFor product.id
        processPairsE env w
          (alerts ++ [mkAlert w item product threshold days supplier]) rest

/-- Outer loop of the service (alerts.service.js lines 9–56): for each
warehouse fetch its inventory and run the inner loop. -/
def processWarehousesE (env : Env) (alerts : List Alert) :
    List Warehouse → Except String (List Alert)
  | [] => .ok alerts
  | w :: rest => do
    let inventories ← env.findInventories w.id
    let alerts2 ← processPairsE env w alerts inventories
    processWarehousesE env alerts2 rest

/-- `fetchLowStockAlerts` of alerts.service.js over an abstract collaborator
environment: fetch the warehouse list for the company, then run the nested
loops starting from the empty `alerts` array. -/
def fetchLowStockAlertsE (env : Env) (companyId : Nat) :
    Except String (List Alert) := do
  let warehouses ← env.findWarehouses companyId
  processWarehousesE env [] warehouses

/-- The concrete environment induced by a database state: every collaborator
is a pure read that succeeds. -/
def envOfDb (db : DB) : Env where
  findWarehouses := fun c => .ok (findWarehouses db c)
  findInventories := fun wid => .ok (findInventoriesWithProduct db wid)
  hasRecentSales := fun pid wid => .ok (hasRecentSalesActivity db pid wid)
  avgDailySales := fun pid wid => .ok (getAverageDailySales db pid wid)
  supplierFor := fun pid => .ok (getSupplierForProduct db pid)

/-- Functional form of the per-pair evaluation against a concrete database:
`none` when a gate rejects the pair, otherwise the alert pushed for it. -/
def evalPair (db : DB) (w : Warehouse) :
    InventoryRecord × Product → Option Alert
  | (item, product) =>
    let threshold := getThresholdByProductType product.product_type
    if item.quantity ≥ threshold then none
    else if hasRecentSalesActivity db product.id w.id then
      let avg := getAverageDailySales db product.id w.id
      let days : Option Int :=
        if 0 < avg then some ⌊(item.quantity : ℚ) / avg⌋ else none
      some (mkAlert w item product threshold days
        (getSupplierForProduct db product.id))
    else none

/-- `fetchLowStockAlerts` run against a concrete database state. -/
def lowStockAlerts (companyId : Nat) (db : DB) : List Alert :=
  (fetchLowStockAlertsE (envOfDb db) companyId).toOption.getD []

/-- Response shape produced by the controller. -/
structure LowStockResponse where
  alerts : List Alert
  total_alerts : Nat
deriving DecidableEq, Repr

/-- `getLowStockAlerts` of alerts.controller.js: call the service and wrap
the list together with its length as `total_alerts`. -/
def getLowStockAlerts (companyId : Nat) (db : DB) : LowStockResponse :=
  let alerts := lowStockAlerts companyId db
  { alerts := alerts, total_alerts := alerts.length }

/-- Sequencing after a collaborator call that succeeded just continues. -/
@[simp]
theorem except_ok_bind {ε α β : Type} (a : α) (f : α → Except ε β) :
    (Except.ok a : Except ε α) >>= f = f a := rfl

@[simp]
theorem envOfDb_findWarehouses (db : DB) (c : Nat) :
    (envOfDb db).findWarehouses c = .ok (findWarehouses db c) := rfl

@[simp]
theorem envOfDb_findInventories (db : DB) (wid : Nat) :
    (envOfDb db).findInventories wid =
      .ok (findInventoriesWithProduct db wid) := rfl

@[simp]
theorem envOfDb_hasRecentSales (db : DB) (pid wid : Nat) :
    (envOfDb db).hasRecentSales pid wid =
      .ok (hasRecentSalesActivity db pid wid) := rfl

@[simp]
theorem envOfDb_avgDailySales (db : DB) (pid wid : Nat) :
    (envOfDb db).avgDailySales pid wid =
      .ok (getAverageDailySales db pid wid) := rfl

@[simp]
theorem envOfDb_supplierFor (db : DB) (pid : Nat) :
    (envOfDb db).supplierFor pid = .ok (getSupplierForProduct db pid) := rfl

/-- Over the concrete environment the inner loop appends exactly the alerts
of the pairs accepted by `evalPair`, in list order. -/
theorem processPairsE_envOfDb (db : DB) (w : Warehouse) (alerts : List Alert)
    (l : List (InventoryRecord × Product)) :
    processPairsE (envOfDb db) w alerts l =
      .ok (alerts ++ l.filterMap (evalPair db w)) := by
  induction l generalizing alerts with
  | nil => simp [processPairsE]
  | cons ip rest ih =>
    obtain ⟨item, product⟩ := ip
    by_cases hq : item.quantity ≥ getThresholdByProductType product.product_type
    · simp [processPairsE, evalPair, hq, ih]
    · by_cases hr : hasRecentSalesActivity db product.id w.id
      · simp [processPairsE, evalPair, hq, hr, ih]
      · simp [processPairsE, evalPair, hq, hr, ih]

/-- Over the concrete environment the outer loop appends, warehouse by
warehouse in list order, the alerts of that warehouse's inventory rows. -/
theorem processWarehousesE_envOfDb (db : DB) (alerts : List Alert)
    (ws : List Warehouse) :
    processWarehousesE (envOfDb db) alerts ws =
      .ok (alerts ++ ws.flatMap (fun w =>
        (findInventoriesWithProduct db w.id).filterMap (evalPair db w))) := by
  induction ws generalizing alerts with
  | nil => simp [processWarehousesE]
  | cons w rest ih =>
    simp only [processWarehousesE, envOfDb_findInventories, except_ok_bind]
    rw [processPairsE_envOfDb]
    simp [ih, List.append_assoc]

/-- On a concrete database the service always succeeds, and its result is the
per-warehouse concatenation of accepted pairs. -/
theorem fetchLowStockAlertsE_envOfDb (db : DB) (companyId : Nat) :
    fetchLowStockAlertsE (envOfDb db) companyId =
      .ok ((findWarehouses db companyId).flatMap (fun w =>
        (findInventoriesWithProduct db w.id).filterMap (evalPair db w))) := by
  simp only [fetchLowStockAlertsE, envOfDb_findWarehouses, except_ok_bind]
  rw [processWarehousesE_envOfDb]
  simp

/-- Closed form of `lowStockAlerts`. -/
theorem lowStockAlerts_eq (db : DB) (companyId : Nat) :
    lowStockAlerts companyId db =
      (findWarehouses db companyId).flatMap (fun w =>
        (findInventoriesWithProduct db w.id).filterMap (evalPair db w)) := by
  simp [lowStockAlerts, fetchLowStockAlertsE_envOfDb, Except.toOption]

/-- A successful product lookup returns the row carrying the key id. -/
theorem lookupProduct_id {db : DB} {pid : Nat} {p : Product}
    (h : lookupProduct db pid = some p) : p.id = pid := by
  have h2 := List.find?_some h
  simpa using h2

/-- Membership in the joined inventory list of a warehouse. -/
theorem mem_findInventoriesWithProduct {db : DB} {wid : Nat}
    {i : InventoryRecord} {p : Product} :
    (i, p) ∈ findInventoriesWithProduct db wid ↔
      i ∈ db.inventories ∧ i.warehouse_id = wid ∧
        lookupProduct db i.product_id = some p := by
  simp only [findInventoriesWithProduct, List.mem_filterMap, List.mem_filter,
    Option.map_eq_some', Prod.mk.injEq, decide_eq_true_eq]
  constructor
  · rintro ⟨i2, ⟨hi, hwid⟩, p2, hl, hi2, hp2⟩
    subst hi2; subst hp2
    exact ⟨hi, hwid, hl⟩
  · rintro ⟨hi, hwid, hl⟩
    exact ⟨i, ⟨hi, hwid⟩, p, hl, rfl, rfl⟩

/-- The alert produced for a single inventory pair, spelled out. -/
theorem evalPair_eq_some {db : DB} {w : Warehouse} {i : InventoryRecord}
    {p : Product} {a : Alert} :
    evalPair db w (i, p) = some a ↔
      i.quantity < getThresholdByProductType p.product_type ∧
      hasRecentSalesActivity db p.id w.id = true ∧
      a = mkAlert w i p (getThresholdByProductType p.product_type)
        (if 0 < getAverageDailySales db p.id w.id then
          some ⌊(i.quantity : ℚ) / getAverageDailySales db p.id w.id⌋
        else none)
        (getSupplierForProduct db p.id) := by
  by_cases h1 : i.quantity ≥ getThresholdByProductType p.product_type
  · simp [evalPair, h1, Nat.not_lt.mpr h1]
  · by_cases h2 : hasRecentSalesActivity db p.id w.id
    · simp [evalPair, h1, h2, Nat.not_le.mp h1, eq_comm]
    · simp [evalPair, h1, h2]

/-- Membership in the service output, reduced to the source tables. -/
theorem mem_lowStockAlerts {companyId : Nat} {db : DB} {a : Alert} :
    a ∈ lowStockAlerts companyId db ↔
      ∃ w ∈ db.warehouses, w.company_id = companyId ∧
      ∃ i ∈ db.inventories, i.warehouse_id = w.id ∧
      ∃ p, lookupProduct db i.product_id = some p ∧
        evalPair db w (i, p) = some a := by
  rw [lowStockAlerts_eq]
  simp only [List.mem_flatMap, List.mem_filterMap, findWarehouses,
    List.mem_filter, decide_eq_true_eq]
  constructor
  · rintro ⟨w, ⟨hw, hc⟩, ⟨i, p⟩, hip, he⟩
    obtain ⟨hi, hwid, hl⟩ := mem_findInventoriesWithProduct.mp hip
    exact ⟨w, hw, hc, i, hi, hwid, p, hl, he⟩
  · rintro ⟨w, hw, hc, i, hi, hwid, p, hl, he⟩
    exact ⟨w, ⟨hw, hc⟩, ⟨i, p⟩,
      mem_findInventoriesWithProduct.mpr ⟨hi, hwid, hl⟩, he⟩

/-- The recency gate holds exactly when some sales row of the pair lies in
the trailing window. -/
theorem hasRecentSalesActivity_iff {db : DB} {pid wid : Nat} :
    hasRecentSalesActivity db pid wid = true ↔
      ∃ s ∈ db.sales, salesInWindow db pid wid s = true := by
  simp [hasRecentSalesActivity, List.any_eq_true]

/-- Claim C3 (confirmed): an alert for a (product, warehouse) pair appears in
the output exactly when the pair belongs to a warehouse of the requested
company, its quantity is strictly below the resolved threshold, and the pair
has at least one qualifying sale in the trailing 30-day window. -/
theorem c3_alert_iff_gates (companyId pid wid : Nat) (db : DB) :
    (∃ a ∈ lowStockAlerts companyId db,
        a.product_id = pid ∧ a.warehouse_id = wid) ↔
      ((∃ w ∈ db.warehouses, w.company_id = companyId ∧ w.id = wid) ∧
       (∃ i ∈ db.inventories, ∃ p : Product,
          i.product_id = pid ∧ i.warehouse_id = wid ∧
          lookupProduct db pid = some p ∧
          i.quantity < getThresholdByProductType p.product_type) ∧
       (∃ s ∈ db.sales, salesInWindow db pid wid s = true)) := by
  constructor
  · rintro ⟨a, ha, hpid, hwid⟩
    obtain ⟨w, hw, hc, i, hi, hiw, p, hl, he⟩ := mem_lowStockAlerts.mp ha
    obtain ⟨hlt, hrec, hval⟩ := evalPair_eq_some.mp he
    have hap : a.product_id = p.id := by rw [hval]; rfl
    have haw : a.warehouse_id = w.id := by rw [hval]; rfl
    have hpidp : p.id = pid := by rw [← hap, hpid]
    have hwid2 : w.id = wid := by rw [← haw, hwid]
    have hipid : i.product_id = pid := by rw [← lookupProduct_id hl, hpidp]
    refine ⟨⟨w, hw, hc, hwid2⟩,
      ⟨i, hi, p, hipid, by rw [hiw, hwid2],
        by rw [← hipid]; exact hl, hlt⟩, ?_⟩
    rw [hpidp, hwid2] at hrec
    exact hasRecentSalesActivity_iff.mp hrec
  · rintro ⟨⟨w, hw, hc, hwid2⟩, ⟨i, hi, p, hipid, hiwid, hl, hlt⟩, hs⟩
    have hpidp : p.id = pid := lookupProduct_id hl
    have hrec : hasRecentSalesActivity db p.id w.id = true := by
      rw [hpidp, hwid2]
      exact hasRecentSalesActivity_iff.mpr hs
    refine ⟨mkAlert w i p (getThresholdByProductType p.product_type)
        (if 0 < getAverageDailySales db p.id w.id then
          some ⌊(i.quantity : ℚ) / getAverageDailySales db p.id w.id⌋
        else none)
        (getSupplierForProduct db p.id), ?_, ?_, ?_⟩
    · exact mem_lowStockAlerts.mpr ⟨w, hw, hc, i, hi,
        by rw [hiwid, hwid2], p, by rw [hipid]; exact hl,
        evalPair_eq_some.mpr ⟨hlt, hrec, rfl⟩⟩
    · simpa [mkAlert] using hpidp
    · simpa [mkAlert] using hwid2

/-- Claim C4 (confirmed): the stock gate is a strict less-than; every emitted
alert has current stock strictly below its threshold, and a pair whose
inventory rows sit exactly at the resolved threshold never alerts. -/
theorem c4_strict_threshold (companyId : Nat) (db : DB) :
    (∀ a ∈ lowStockAlerts companyId db, a.current_stock < a.threshold) ∧
    ∀ pid wid : Nat,
      (∀ i ∈ db.inventories, i.product_id = pid → i.warehouse_id = wid →
        ∀ p : Product, lookupProduct db pid = some p →
          i.quantity = getThresholdByProductType p.product_type) →
      ¬ ∃ a ∈ lowStockAlerts companyId db,
          a.product_id = pid ∧ a.warehouse_id = wid := by
  constructor
  · intro a ha
    obtain ⟨w, hw, hc, i, hi, hiw, p, hl, he⟩ := mem_lowStockAlerts.mp ha
    obtain ⟨hlt, hrec, hval⟩ := evalPair_eq_some.mp he
    rw [hval]
    simpa [mkAlert] using hlt
  · rintro pid wid hEq ⟨a, ha, hpid, hwid⟩
    obtain ⟨w, hw, hc, i, hi, hiw, p, hl, he⟩ := mem_lowStockAlerts.mp ha
    obtain ⟨hlt, hrec, hval⟩ := evalPair_eq_some.mp he
    have hap : a.product_id = p.id := by rw [hval]; rfl
    have haw : a.warehouse_id = w.id := by rw [hval]; rfl
    have hpidp : p.id = pid := by rw [← hap, hpid]
    have hipid : i.product_id = pid := by rw [← lookupProduct_id hl, hpidp]
    have heq := hEq i hi hipid (by rw [hiw, ← haw, hwid]) p
      (by rw [← hipid]; exact hl)
    omega

/-- Claim C5 (confirmed): a pair with zero qualifying sales in the trailing
30-day window never alerts, however low its stock. -/
theorem c5_no_recent_sales_no_alert (companyId pid wid : Nat) (db : DB)
    (h : ∀ s ∈ db.sales, salesInWindow db pid wid s = false) :
    ¬ ∃ a ∈ lowStockAlerts companyId db,
        a.product_id = pid ∧ a.warehouse_id = wid := by
  rintro ⟨a, ha, hpid, hwid⟩
  obtain ⟨w, hw, hc, i, hi, hiw, p, hl, he⟩ := mem_lowStockAlerts.mp ha
  obtain ⟨hlt, hrec, hval⟩ := evalPair_eq_some.mp he
  have hap : a.product_id = p.id := by rw [hval]; rfl
  have haw : a.warehouse_id = w.id := by rw [hval]; rfl
  have hpidp : p.id = pid := by rw [← hap, hpid]
  have hwid2 : w.id = wid := by rw [← haw, hwid]
  rw [hpidp, hwid2] at hrec
  obtain ⟨s, hs, hsw⟩ := hasRecentSalesActivity_iff.mp hrec
  have hfalse := h s hs
  rw [hfalse] at hsw
  exact Bool.false_ne_true hsw

/-- Claim C9 (confirmed): the controller reports `total_alerts` as exactly
the length of the `alerts` array it returns. -/
theorem c9_total_alerts_length (companyId : Nat) (db : DB) :
    (getLowStockAlerts companyId db).total_alerts =
      (getLowStockAlerts companyId db).alerts.length := rfl

/-- Average daily sales over the window is never negative. -/
theorem getAverageDailySales_nonneg (db : DB) (pid wid : Nat) :
    0 ≤ getAverageDailySales db pid wid := by
  unfold getAverageDailySales
  positivity

/-- A product with no link row in `product_suppliers` resolves to no
supplier. -/
theorem getSupplierForProduct_eq_none {db : DB} {pid : Nat}
    (h : ∀ l ∈ db.productSuppliers, ¬ l.product_id = pid) :
    getSupplierForProduct db pid = none := by
  unfold getSupplierForProduct
  have hfil : db.suppliers.filter (fun s => db.productSuppliers.any
      (fun l => l.product_id = pid && l.supplier_id = s.id)) = [] := by
    rw [List.filter_eq_nil_iff]
    intro s hs
    simp only [List.any_eq_true, Bool.and_eq_true, decide_eq_true_eq,
      not_exists, not_and]
    intro l hl hlp
    exact absurd hlp (h l hl)
  rw [hfil]
  rfl

/-- Claim C6 (confirmed): an emitted alert's `days_until_stockout` is `null`
exactly when the average daily sales of its pair over the 30-day window is
zero, and otherwise equals the non-negative floor of current stock divided by
that average. -/
theorem c6_days_until_stockout (companyId : Nat) (db : DB) (a : Alert)
    (ha : a ∈ lowStockAlerts companyId db) :
    (a.days_until_stockout = none ↔
      getAverageDailySales db a.product_id a.warehouse_id = 0) ∧
    ∀ d : Int, a.days_until_stockout = some d →
      d = ⌊(a.current_stock : ℚ) /
            getAverageDailySales db a.product_id a.warehouse_id⌋ ∧ 0 ≤ d := by
  obtain ⟨w, hw, hc, i, hi, hiw, p, hl, he⟩ := mem_lowStockAlerts.mp ha
  obtain ⟨hlt, hrec, hval⟩ := evalPair_eq_some.mp he
  have hap : a.product_id = p.id := by rw [hval]; rfl
  have hcs : a.current_stock = i.quantity := by rw [hval]; rfl
  have haw : a.warehouse_id = w.id := by rw [hval]; rfl
  have hdays : a.days_until_stockout =
      (if 0 < getAverageDailySales db p.id w.id then
        some ⌊(i.quantity : ℚ) / getAverageDailySales db p.id w.id⌋
      else none) := by
    rw [hval]; rfl
  rw [hap, haw, hcs, hdays]
  by_cases hpos : 0 < getAverageDailySales db p.id w.id
  · rw [if_pos hpos]
    refine ⟨iff_of_false (by simp) (ne_of_gt hpos), ?_⟩
    intro d hd
    have hdval : ⌊(i.quantity : ℚ) / getAverageDailySales db p.id w.id⌋ = d :=
      Option.some_inj.mp hd
    refine ⟨hdval.symm, ?_⟩
    rw [← hdval]
    exact Int.floor_nonneg.mpr (div_nonneg (Nat.cast_nonneg i.quantity)
      (le_of_lt hpos))
  · have hzero : getAverageDailySales db p.id w.id = 0 :=
      le_antisymm (not_lt.mp hpos) (getAverageDailySales_nonneg db p.id w.id)
    rw [if_neg hpos]
    exact ⟨iff_of_true rfl hzero, fun d hd => Option.noConfusion hd⟩

/-- Claim C7 (confirmed): a product with zero suppliers that passes the stock
and recency gates still alerts, with its `supplier` field `null`; the pair is
not skipped and no error is raised. -/
theorem c7_supplierless_alert (companyId pid wid : Nat) (db : DB)
    (hnosupp : ∀ l ∈ db.productSuppliers, ¬ l.product_id = pid)
    (hw : ∃ w ∈ db.warehouses, w.company_id = companyId ∧ w.id = wid)
    (hi : ∃ i ∈ db.inventories, ∃ p : Product,
        i.product_id = pid ∧ i.warehouse_id = wid ∧
        lookupProduct db pid = some p ∧
        i.quantity < getThresholdByProductType p.product_type)
    (hs : ∃ s ∈ db.sales, salesInWindow db pid wid s = true) :
    ∃ a ∈ lowStockAlerts companyId db,
      a.product_id = pid ∧ a.warehouse_id = wid ∧ a.supplier = none := by
  obtain ⟨w, hww, hc, hwid2⟩ := hw
  obtain ⟨i, hii, p, hipid, hiwid, hl, hlt⟩ := hi
  have hpidp : p.id = pid := lookupProduct_id hl
  have hrec : hasRecentSalesActivity db p.id w.id = true := by
    rw [hpidp, hwid2]
    exact hasRecentSalesActivity_iff.mpr hs
  refine ⟨mkAlert w i p (getThresholdByProductType p.product_type)
      (if 0 < getAverageDailySales db p.id w.id then
        some ⌊(i.quantity : ℚ) / getAverageDailySales db p.id w.id⌋
      else none)
      (getSupplierForProduct db p.id), ?_, ?_, ?_, ?_⟩
  · exact mem_lowStockAlerts.mpr ⟨w, hww, hc, i, hii,
      by rw [hiwid, hwid2], p, by rw [hipid]; exact hl,
      evalPair_eq_some.mpr ⟨hlt, hrec, rfl⟩⟩
  · simpa [mkAlert] using hpidp
  · simpa [mkAlert] using hwid2
  · show getSupplierForProduct db p.id = none
    rw [hpidp]
    exact getSupplierForProduct_eq_none hnosupp

/-- Sequencing after a collaborator call that rejected propagates the
rejection. -/
@[simp]
theorem except_error_bind {ε α β : Type} (e : ε) (f : α → Except ε β) :
    (Except.error e : Except ε α) >>= f = Except.error e := rfl

/-- Database with no rows at all: company id 1 is unknown to it. -/
def dbEmpty : DB :=
  { companies := []
    warehouses := []
    products := []
    inventories := []
    sales := []
    suppliers := []
    productSuppliers := []
    now := 0 }

/-- Claim C1 counterexample: company id 1 resolves to no known company, yet
the service succeeds with zero alerts instead of failing with a not-found
error. -/
theorem c1_unknown_company_counterexample :
    (∀ co ∈ dbEmpty.companies, ¬ co.id = 1) ∧
    fetchLowStockAlertsE (envOfDb dbEmpty) 1 = .ok [] := by
  constructor
  · intro co hco
    simp [dbEmpty] at hco
  · rfl

/-- Claim C1 (corrected): the service never fails for any company
identifier; when the identifier matches no warehouse — an unknown company or
a company without warehouses — it succeeds with zero alerts. -/
theorem c1_amended_never_not_found (companyId : Nat) (db : DB) :
    (∃ alerts, fetchLowStockAlertsE (envOfDb db) companyId = .ok alerts) ∧
    (findWarehouses db companyId = [] →
      fetchLowStockAlertsE (envOfDb db) companyId = .ok []) := by
  refine ⟨⟨_, fetchLowStockAlertsE_envOfDb db companyId⟩, ?_⟩
  intro h
  rw [fetchLowStockAlertsE_envOfDb, h]
  rfl

/-- Claim C1 amended witness at the empty database and company id 1. -/
theorem c1_amended_never_not_found_witness :
    (∃ alerts, fetchLowStockAlertsE (envOfDb dbEmpty) 1 = .ok alerts) ∧
    fetchLowStockAlertsE (envOfDb dbEmpty) 1 = .ok [] :=
  ⟨(c1_amended_never_not_found 1 dbEmpty).1,
    (c1_amended_never_not_found 1 dbEmpty).2 rfl⟩

/-- Environment whose warehouse-list call rejects. -/
def envWarehouseDown : Env :=
  { findWarehouses := fun _ => .error "warehouse lookup failed"
    findInventories := fun _ => .ok []
    hasRecentSales := fun _ _ => .ok true
    avgDailySales := fun _ _ => .ok 0
    supplierFor := fun _ => .ok none }

/-- Environment whose per-pair sales-history call rejects. -/
def envSalesDown : Env :=
  { findWarehouses := fun _ => .ok [⟨1, 1, "Main"⟩]
    findInventories := fun _ => .ok
      [(⟨7, 1, 5⟩, ⟨7, "Widget", "W-1", "simple"⟩)]
    hasRecentSales := fun _ _ => .error "sales lookup failed"
    avgDailySales := fun _ _ => .ok 0
    supplierFor := fun _ => .ok none }

/-- Environment whose per-pair supplier call rejects for product 7 while a
second qualifying pair (product 8) remains to be processed. -/
def envSupplierDown : Env :=
  { findWarehouses := fun _ => .ok [⟨1, 1, "Main"⟩]
    findInventories := fun _ => .ok
      [(⟨7, 1, 5⟩, ⟨7, "Widget", "W-1", "simple"⟩),
       (⟨8, 1, 4⟩, ⟨8, "Gadget", "G-1", "simple"⟩)]
    hasRecentSales := fun _ _ => .ok true
    avgDailySales := fun _ _ => .ok 1
    supplierFor := fun pid =>
      if pid = 7 then .error "supplier lookup failed" else .ok none }

/-- Claim C2 counterexample: a failure of one pair's supplier lookup rejects
the whole aggregation — no degraded alert, and the remaining pair (product 8)
is never reached. -/
theorem c2_supplier_failure_counterexample :
    envSupplierDown.supplierFor 7 = .error "supplier lookup failed" ∧
    envSupplierDown.findWarehouses 1 = .ok [⟨1, 1, "Main"⟩] ∧
    fetchLowStockAlertsE envSupplierDown 1 =
      .error "supplier lookup failed" :=
  ⟨rfl, rfl, rfl⟩

/-- Claim C2 (corrected): the service has no error handling, so every
collaborator failure — the warehouse list, a per-pair sales-history lookup,
or a per-pair supplier lookup — rejects the whole aggregation instead of
degrading the single affected alert. -/
theorem c2_amended_failure_propagates (env : Env) (companyId : Nat)
    (e : String) :
    (env.findWarehouses companyId = .error e →
      fetchLowStockAlertsE env companyId = .error e) ∧
    (∀ (w : Warehouse) (ws : List Warehouse) (i : InventoryRecord)
        (p : Product) (rest : List (InventoryRecord × Product)),
      env.findWarehouses companyId = .ok (w :: ws) →
      env.findInventories w.id = .ok ((i, p) :: rest) →
      i.quantity < getThresholdByProductType p.product_type →
      env.hasRecentSales p.id w.id = .error e →
      fetchLowStockAlertsE env companyId = .error e) ∧
    (∀ (w : Warehouse) (ws : List Warehouse) (i : InventoryRecord)
        (p : Product) (rest : List (InventoryRecord × Product)) (avg : ℚ),
      env.findWarehouses companyId = .ok (w :: ws) →
      env.findInventories w.id = .ok ((i, p) :: rest) →
      i.quantity < getThresholdByProductType p.product_type →
      env.hasRecentSales p.id w.id = .ok true →
      env.avgDailySales p.id w.id = .ok avg →
      env.supplierFor p.id = .error e →
      fetchLowStockAlertsE env companyId = .error e) := by
  refine ⟨?_, ?_, ?_⟩
  · intro h
    simp [fetchLowStockAlertsE, h]
  · intro w ws i p rest h1 h2 hlt h3
    simp [fetchLowStockAlertsE, h1, processWarehousesE, h2, processPairsE,
      if_neg (Nat.not_le.mpr hlt), h3]
  · intro w ws i p rest avg h1 h2 hlt h3 h4 h5
    simp [fetchLowStockAlertsE, h1, processWarehousesE, h2, processPairsE,
      if_neg (Nat.not_le.mpr hlt), h3, h4, h5]

/-- Claim C2 amended witness: each of the three failure spots demonstrated on
its concrete environment. -/
theorem c2_amended_failure_propagates_witness :
    fetchLowStockAlertsE envWarehouseDown 1 =
      .error "warehouse lookup failed" ∧
    fetchLowStockAlertsE envSalesDown 1 = .error "sales lookup failed" ∧
    fetchLowStockAlertsE envSupplierDown 1 =
      .error "supplier lookup failed" :=
  ⟨(c2_amended_failure_propagates envWarehouseDown 1
      "warehouse lookup failed").1 rfl,
   (c2_amended_failure_propagates envSalesDown 1 "sales lookup failed").2.1
      ⟨1, 1, "Main"⟩ [] ⟨7, 1, 5⟩ ⟨7, "Widget", "W-1", "simple"⟩ []
      rfl rfl (by decide) rfl,
   (c2_amended_failure_propagates envSupplierDown 1
      "supplier lookup failed").2.2
      ⟨1, 1, "Main"⟩ [] ⟨7, 1, 5⟩ ⟨7, "Widget", "W-1", "simple"⟩
      [(⟨8, 1, 4⟩, ⟨8, "Gadget", "G-1", "simple"⟩)] 1
      rfl rfl (by decide) rfl rfl rfl⟩

/-- Database whose inventory table lists product 2 before product 1 in the
same warehouse; both pairs qualify for an alert. -/
def db8 : DB :=
  { companies := [⟨1⟩]
    warehouses := [⟨1, 1, "Main"⟩]
    products := [⟨2, "B", "SKU-2", "simple"⟩, ⟨1, "A", "SKU-1", "simple"⟩]
    inventories := [⟨2, 1, 5⟩, ⟨1, 1, 5⟩]
    sales := [⟨2, 1, 3, 95⟩, ⟨1, 1, 3, 95⟩]
    suppliers := []
    productSuppliers := []
    now := 100 }

/-- Claim C8 counterexample: within one warehouse the alerts follow the
inventory table order (product 2 before product 1), which is not product-id
ascending. -/
theorem c8_order_counterexample :
    ((lowStockAlerts 1 db8).map (fun a => (a.warehouse_id, a.product_id)) =
      [(1, 2), (1, 1)]) ∧
    ¬ List.Sorted (· ≤ ·)
        ((lowStockAlerts 1 db8).map (fun a => a.product_id)) := by
  with_unfolding_all decide

/-- Claim C8 (corrected): with unchanged data the response is identical
across invocations, and alerts are grouped by warehouse in the order
warehouses were resolved; within a warehouse they follow the order of the
inventory lookup, not product-id order. -/
theorem c8_amended_deterministic_order (companyId : Nat) (db db2 : DB) :
    (db2 = db → lowStockAlerts companyId db2 = lowStockAlerts companyId db) ∧
    lowStockAlerts companyId db =
      (findWarehouses db companyId).flatMap (fun w =>
        (findInventoriesWithProduct db w.id).filterMap (evalPair db w)) :=
  ⟨fun h => by rw [h], lowStockAlerts_eq db companyId⟩

/-- Claim C8 amended witness at the two-product database. -/
theorem c8_amended_deterministic_order_witness :
    lowStockAlerts 1 db8 = lowStockAlerts 1 db8 ∧
    lowStockAlerts 1 db8 =
      (findWarehouses db8 1).flatMap (fun w =>
        (findInventoriesWithProduct db8 w.id).filterMap (evalPair db8 w)) :=
  ⟨(c8_amended_deterministic_order 1 db8 db8).1 rfl,
   (c8_amended_deterministic_order 1 db8 db8).2⟩

/-- State-passing view of the warehouse SELECT: rows out, store unchanged. -/
def findWarehousesSt (companyId : Nat) (db : DB) : List Warehouse × DB :=
  (findWarehouses db companyId, db)

/-- State-passing view of the inventory-with-product SELECT. -/
def findInventoriesSt (wid : Nat) (db : DB) :
    List (InventoryRecord × Product) × DB :=
  (findInventoriesWithProduct db wid, db)

/-- State-passing view of the recent-sales read. -/
def hasRecentSalesSt (pid wid : Nat) (db : DB) : Bool × DB :=
  (hasRecentSalesActivity db pid wid, db)

/-- State-passing view of the average-daily-sales read. -/
def avgDailySalesSt (pid wid : Nat) (db : DB) : ℚ × DB :=
  (getAverageDailySales db pid wid, db)

/-- State-passing view of the supplier read. -/
def supplierForSt (pid : Nat) (db : DB) : Option Supplier × DB :=
  (getSupplierForProduct db pid, db)

/-- Inner service loop with the database state threaded through every
collaborator call. -/
def processPairsSt (w : Warehouse) (alerts : List Alert) (db : DB) :
    List (InventoryRecord × Product) → List Alert × DB
  | [] => (alerts, db)
  | (item, product) :: rest =>
    let threshold := getThresholdByProductType product.product_type
    if item.quantity ≥ threshold then
      processPairsSt w alerts db rest
    else
      let hr := hasRecentSalesSt product.id w.id db
      if !hr.1 then
        processPairsSt w alerts hr.2 rest
      else
        let av := avgDailySalesSt product.id w.id hr.2
        let days : Option Int :=
          if 0 < av.1 then some ⌊(item.quantity : ℚ) / av.1⌋ else none
        let sup := supplierForSt product.id av.2
        processPairsSt w
          (alerts ++ [mkAlert w item product threshold days sup.1]) sup.2 rest

/-- Outer service loop with the database state threaded through. -/
def processWarehousesSt (alerts : List Alert) (db : DB) :
    List Warehouse → List Alert × DB
  | [] => (alerts, db)
  | w :: rest =>
    let inv := findInventoriesSt w.id db
    let res := processPairsSt w alerts inv.2 inv.1
    processWarehousesSt res.1 res.2 rest

/-- `fetchLowStockAlerts` with the database state threaded through every
collaborator call, exposing the final state next to the result. -/
def fetchLowStockAlertsSt (companyId : Nat) (db : DB) : List Alert × DB :=
  let ws := findWarehousesSt companyId db
  processWarehousesSt [] ws.2 ws.1

/-- The threaded inner loop leaves the store untouched and computes the same
alerts as the functional form. -/
theorem processPairsSt_eq (db : DB) (w : Warehouse) (alerts : List Alert)
    (l : List (InventoryRecord × Product)) :
    processPairsSt w alerts db l =
      (alerts ++ l.filterMap (evalPair db w), db) := by
  induction l generalizing alerts with
  | nil => simp [processPairsSt]
  | cons ip rest ih =>
    obtain ⟨item, product⟩ := ip
    by_cases h1 : item.quantity ≥ getThresholdByProductType product.product_type
    · simp [processPairsSt, evalPair, h1, ih]
    · by_cases h2 : hasRecentSalesActivity db product.id w.id
      · simp [processPairsSt, evalPair, hasRecentSalesSt, avgDailySalesSt,
          supplierForSt, h1, h2, ih]
      · simp [processPairsSt, evalPair, hasRecentSalesSt, h1, h2, ih]

/-- The threaded outer loop leaves the store untouched. -/
theorem processWarehousesSt_eq (db : DB) (alerts : List Alert)
    (ws : List Warehouse) :
    processWarehousesSt alerts db ws =
      (alerts ++ ws.flatMap (fun w =>
        (findInventoriesWithProduct db w.id).filterMap (evalPair db w)),
       db) := by
  induction ws generalizing alerts with
  | nil => simp [processWarehousesSt]
  | cons w rest ih =>
    simp only [processWarehousesSt, findInventoriesSt]
    rw [processPairsSt_eq]
    simp [ih, List.append_assoc]

/-- Claim C10 (confirmed): the aggregation is read-only — it returns the
store exactly as it found it, and its alerts agree with the service
output. -/
theorem c10_read_only (companyId : Nat) (db : DB) :
    (fetchLowStockAlertsSt companyId db).2 = db ∧
    (fetchLowStockAlertsSt companyId db).1 = lowStockAlerts companyId db := by
  constructor
  · simp [fetchLowStockAlertsSt, findWarehousesSt, processWarehousesSt_eq]
  · simp [fetchLowStockAlertsSt, findWarehousesSt, processWarehousesSt_eq,
      lowStockAlerts_eq]

/-- Database with one warehouse holding one qualifying low-stock pair:
product 7, quantity 5, 10 units sold in the window, supplier 3 linked. -/
def dbMain : DB :=
  { companies := [⟨1⟩]
    warehouses := [⟨1, 1, "Main"⟩]
    products := [⟨7, "Widget", "W-1", "simple"⟩]
    inventories := [⟨7, 1, 5⟩]
    sales := [⟨7, 1, 10, 95⟩]
    suppliers := [⟨3, "S", "s@x"⟩]
    productSuppliers := [⟨7, 3⟩]
    now := 100 }

/-- The single alert of `dbMain`: floor(5 / (10/30)) = 15 days. -/
def alertMain : Alert :=
  mkAlert ⟨1, 1, "Main"⟩ ⟨7, 1, 5⟩ ⟨7, "Widget", "W-1", "simple"⟩ 20
    (some 15) (some ⟨3, "S", "s@x"⟩)

/-- Like `dbMain` but the quantity sits exactly at the threshold 20. -/
def dbEq : DB :=
  { companies := [⟨1⟩]
    warehouses := [⟨1, 1, "Main"⟩]
    products := [⟨7, "Widget", "W-1", "simple"⟩]
    inventories := [⟨7, 1, 20⟩]
    sales := [⟨7, 1, 10, 95⟩]
    suppliers := [⟨3, "S", "s@x"⟩]
    productSuppliers := [⟨7, 3⟩]
    now := 100 }

/-- Like `dbMain` but with zero stock and the only sale outside the 30-day
window. -/
def dbC5 : DB :=
  { companies := [⟨1⟩]
    warehouses := [⟨1, 1, "Main"⟩]
    products := [⟨7, "Widget", "W-1", "simple"⟩]
    inventories := [⟨7, 1, 0⟩]
    sales := [⟨7, 1, 10, 50⟩]
    suppliers := [⟨3, "S", "s@x"⟩]
    productSuppliers := [⟨7, 3⟩]
    now := 100 }

/-- Like `dbMain` but with no supplier linked to any product. -/
def dbC7 : DB :=
  { companies := [⟨1⟩]
    warehouses := [⟨1, 1, "Main"⟩]
    products := [⟨7, "Widget", "W-1", "simple"⟩]
    inventories := [⟨7, 1, 5⟩]
    sales := [⟨7, 1, 10, 95⟩]
    suppliers := []
    productSuppliers := []
    now := 100 }

/-- Claim C4 witness: the `dbMain` alert is strictly below threshold, and the
at-threshold database `dbEq` produces no alert for its pair. -/
theorem c4_strict_threshold_witness :
    (alertMain ∈ lowStockAlerts 1 dbMain ∧
      alertMain.current_stock < alertMain.threshold) ∧
    ¬ ∃ a ∈ lowStockAlerts 1 dbEq, a.product_id = 7 ∧ a.warehouse_id = 1 :=
  ⟨⟨by with_unfolding_all decide,
    (c4_strict_threshold 1 dbMain).1 alertMain (by with_unfolding_all decide)⟩,
   (c4_strict_threshold 1 dbEq).2 7 1 (by
      intro i hi hip hiw p hp
      have hsome : some (⟨7, "Widget", "W-1", "simple"⟩ : Product) = some p := by
        rw [← hp]; rfl
      obtain rfl : p = ⟨7, "Widget", "W-1", "simple"⟩ :=
        (Option.some_inj.mp hsome).symm
      have : i = ⟨7, 1, 20⟩ := by
        simpa [dbEq] using hi
      rw [this]; decide)⟩

/-- Claim C5 witness: zero stock with the only sale out of window yields no
alert at `dbC5`. -/
theorem c5_no_recent_sales_no_alert_witness :
    (∀ s ∈ dbC5.sales, salesInWindow dbC5 7 1 s = false) ∧
    ¬ ∃ a ∈ lowStockAlerts 1 dbC5, a.product_id = 7 ∧ a.warehouse_id = 1 :=
  ⟨by decide, c5_no_recent_sales_no_alert 1 7 1 dbC5 (by decide)⟩

/-- Claim C6 witness: the `dbMain` alert has `days_until_stockout` of
exactly 15 = floor(5 / (10/30)), and the null-iff-zero-average equivalence
holds for it. -/
theorem c6_days_until_stockout_witness :
    alertMain ∈ lowStockAlerts 1 dbMain ∧
    ((alertMain.days_until_stockout = none ↔
        getAverageDailySales dbMain alertMain.product_id
          alertMain.warehouse_id = 0) ∧
      ∀ d : Int, alertMain.days_until_stockout = some d →
        d = ⌊(alertMain.current_stock : ℚ) /
              getAverageDailySales dbMain alertMain.product_id
                alertMain.warehouse_id⌋ ∧ 0 ≤ d) ∧
    alertMain.days_until_stockout = some 15 :=
  ⟨by with_unfolding_all decide,
   c6_days_until_stockout 1 dbMain alertMain (by with_unfolding_all decide),
   rfl⟩

/-- Claim C7 witness: at `dbC7` the supplier-less product 7 still alerts with
`supplier = none`. -/
theorem c7_supplierless_alert_witness :
    ∃ a ∈ lowStockAlerts 1 dbC7,
      a.product_id = 7 ∧ a.warehouse_id = 1 ∧ a.supplier = none :=
  c7_supplierless_alert 1 7 1 dbC7 (by decide) (by decide)
    ⟨⟨7, 1, 5⟩, by decide, ⟨7, "Widget", "W-1", "simple"⟩, rfl, rfl, rfl,
      by decide⟩
    (by decide)

end Bynry
